import Mathlib

/-
Shallow embedding of src/eloquent/connections/connection.py (the Connection
class of the orator repository): connection state, transaction bookkeeping,
read/write routing, the pretend mode, the reconnect controller, and the
statement execution pipeline with its single-retry-on-lost-connection policy.
Machine state is explicit; Python exceptions become Except / Option results
that also carry the state at the moment the exception propagates.
-/

namespace Orator

/-- Leading-match test on character lists: true when the first list is an
initial segment of the second. Used to embed the Python substring test. -/
def matchesAt : List Char → List Char → Bool
  | [], _ => true
  | _ :: _, [] => false
  | a :: as, b :: bs => a == b && matchesAt as bs

/-- Substring test on character lists: true when the first list occurs
contiguously inside the second, embedding the Python expression s in message. -/
def containsSub (needle : List Char) : List Char → Bool
  | [] => matchesAt needle []
  | b :: bs => matchesAt needle (b :: bs) || containsSub needle bs

/-- String-level substring test: needle occurs inside hay. -/
def strContainsS (hay needle : String) : Bool :=
  containsSub needle.toList hay.toList

/-- Connection state: the dbapi write handle (self underscore connection),
the optional read handle, the transaction nesting counter (a Python int, so
it can go negative), the pretend flag and the query-logging flag. Handles are
opaque to this layer and are modelled as Option Nat, none meaning absent. -/
structure Conn where
  connection : Option Nat
  readConnection : Option Nat
  transactions : Int
  pretending : Bool
  loggingQueries : Bool
deriving DecidableEq, Repr

/-- A freshly constructed connection: write handle present, no read handle,
transaction level 0, pretend off, logging off (the constructor defaults). -/
def conn0 : Conn :=
  { connection := some 0
    readConnection := none
    transactions := 0
    pretending := false
    loggingQueries := false }

/-- Observable driver-level calls issued by the transaction manager. -/
inductive DriverCall
  | physCommit
  | physRollback
deriving DecidableEq, Repr

/-- begin_transaction: increments the nesting counter, nothing else. -/
def begin_transaction (c : Conn) : Conn :=
  { c with transactions := c.transactions + 1 }

/-- commit: when the level is exactly 1 a physical commit is issued on the
write handle (which may raise when driverFails is set, in which case the
decrement below is skipped because the exception propagates first); in every
non-raising case the level is then decremented. Third component some () means
the physical commit raised. -/
def commit (driverFails : Bool) (c : Conn) : Conn × List DriverCall × Option Unit :=
  if c.transactions = 1 then
    if driverFails then (c, [], some ())
    else ({ c with transactions := c.transactions - 1 }, [DriverCall.physCommit], none)
  else ({ c with transactions := c.transactions - 1 }, [], none)

/-- rollback: when the level is exactly 1 the level is set to 0 and a
physical rollback is issued; otherwise the level is only decremented with no
driver call. -/
def rollback (c : Conn) : Conn × List DriverCall :=
  if c.transactions = 1 then
    ({ c with transactions := 0 }, [DriverCall.physRollback])
  else ({ c with transactions := c.transactions - 1 }, [])

/-- The three transaction-manager operations, for running call sequences. -/
inductive TxOp
  | beginT
  | commitT
  | rollbackT
deriving DecidableEq, Repr

/-- One transaction-manager call with a non-failing driver. -/
def txStep (c : Conn) : TxOp → Conn × List DriverCall
  | TxOp.beginT => (begin_transaction c, [])
  | TxOp.commitT => ((commit false c).1, (commit false c).2.1)
  | TxOp.rollbackT => rollback c

/-- Runs a sequence of transaction-manager calls, collecting the physical
driver calls they issue in order. -/
def runTx : Conn → List TxOp → Conn × List DriverCall
  | c, [] => (c, [])
  | c, op :: ops =>
    let s := txStep c op
    let r := runTx s.1 ops
    (r.1, s.2 ++ r.2)

/-- True when every commit and rollback in the sequence is invoked at a
level of at least 1 (the discipline of callers that pair each commit or
rollback with an earlier begin). -/
def balancedFrom : Conn → List TxOp → Bool
  | _, [] => true
  | c, TxOp.beginT :: ops => balancedFrom (txStep c TxOp.beginT).1 ops
  | c, TxOp.commitT :: ops =>
    decide (1 ≤ c.transactions) && balancedFrom (txStep c TxOp.commitT).1 ops
  | c, TxOp.rollbackT :: ops =>
    decide (1 ≤ c.transactions) && balancedFrom (txStep c TxOp.rollbackT).1 ops

/-- get_connection: returns the write handle. -/
def get_connection (c : Conn) : Option Nat :=
  c.connection

/-- get_read_connection: inside a transaction (level at least 1) the write
handle is returned; otherwise the configured read handle when one is present,
and the write handle when not. -/
def get_read_connection (c : Conn) : Option Nat :=
  if 1 ≤ c.transactions then get_connection c
  else
    match c.readConnection with
    | some r => some r
    | none => c.connection

/-- Error raised by set_connection when a swap is attempted mid-transaction
(a RuntimeError in the source, the StateError of the spec taxonomy). -/
inductive StateError
  | swapWithinTransaction
deriving DecidableEq, Repr

/-- set_connection: raises StateError when the transaction level is at least
1, otherwise installs the given write handle. -/
def set_connection (c : Conn) (h : Option Nat) : Except StateError Conn :=
  if 1 ≤ c.transactions then Except.error StateError.swapWithinTransaction
  else Except.ok { c with connection := h }

/-- set_read_connection: installs the given read handle unconditionally; the
source has no transaction-level guard on this setter. -/
def set_read_connection (c : Conn) (h : Option Nat) : Conn :=
  { c with readConnection := h }

/-- pretend: saves the logging flag, force-enables logging, sets the pretend
flag, runs the callback, and on normal return clears the pretend flag and
restores the saved logging flag. The callback returns its final state plus an
optional exception; when it raises, the exception propagates immediately and
none of the restoring assignments run (the source has no try/finally). -/
def pretend (c : Conn) (work : Conn → Conn × Option E) : Conn × Option E :=
  let saved := c.loggingQueries
  let entered := { c with loggingQueries := true, pretending := true }
  match work entered with
  | (c2, some e) => (c2, some e)
  | (c2, none) => ({ c2 with pretending := false, loggingQueries := saved }, none)

/-- Message of the exception raised by reconnect without a reconnector. -/
def noReconnectorMsg : String :=
  "Lost connection and no reconnector available"

/-- reconnect: invokes the configured reconnector on the connection and
returns its result; with no reconnector configured it raises, carrying
noReconnectorMsg. The reconnector is passed explicitly since it is an
opaque callable field of the connection. -/
def reconnect (rec : Option (Conn → A)) (c : Conn) : Except String A :=
  match rec with
  | some f => Except.ok (f c)
  | none => Except.error noReconnectorMsg

/-- Error raised by a Python out-of-range list index. -/
inductive SelectOneErr
  | indexOutOfRange
deriving DecidableEq, Repr

/-- select_one: when the result list is non-empty it returns the element at
index 1 (raising when the list has fewer than two elements), and on an empty
list it returns none. Embeds the records parameter as the list the underlying
select produced. -/
def select_one (records : List A) : Except SelectOneErr (Option A) :=
  if records.length ≠ 0 then
    match records.get? 1 with
    | some r => Except.ok (some r)
    | none => Except.error SelectOneErr.indexOutOfRange
  else Except.ok none

/-- The fixed lost-connection substrings of caused_by_lost_connection. -/
def lostConnectionMessages : List String :=
  ["server has gone away", "no connection to the server", "Lost Connection"]

/-- Modelled from the spec: the QueryException class is not under src (only
its use sites are), so its message field is taken from the spec, which says
the wrapper carries the statement, the normalized bindings and the underlying
cause, and that retry classification inspects the underlying cause message;
message here is the cause message the classifier reads. -/
structure QueryException where
  query : String
  bindings : List String
  message : String
deriving DecidableEq, Repr

/-- Wraps a driver failure into a QueryException carrying the statement, the
bindings and the cause message. -/
def wrapQueryError (q : String) (b : List String) (causeMsg : String) : QueryException :=
  { query := q, bindings := b, message := causeMsg }

/-- caused_by_lost_connection: true when the exception message contains one
of the fixed lost-connection substrings. -/
def causedByLostConnection (e : QueryException) : Bool :=
  lostConnectionMessages.any (fun s => strContainsS e.message s)

/-- Outcome of one execution of the strategy against real handles on a given
attempt: a success value or a driver error with its message. -/
inductive ExecOutcome (A : Type)
  | success (v : A)
  | failure (msg : String)
deriving DecidableEq, Repr

/-- Result observed by the caller of the execution pipeline. -/
inductive RunResult (A : Type)
  | ok (v : A)
  | queryErr (e : QueryException)
  | configErr (msg : String)
deriving DecidableEq, Repr

/-- Trace of the pipeline: how many times the strategy executed against real
handles, how many reconnect calls happened, and how many times log_query ran. -/
structure RunTrace where
  attempts : Nat
  reconnects : Nat
  logCalls : Nat
deriving DecidableEq, Repr

/-- The execution pipeline body of run for a connection whose handles are
present (so the reconnect-if-missing guard does nothing): execute the
strategy once; on a driver failure wrap it as a QueryException; when the
message matches a lost-connection substring, reconnect (raising the
no-reconnector error when hasRec is false, with no further attempt) and
re-execute exactly once, wrapping a second failure the same way; otherwise
re-raise the wrapped error. log_query runs only on the return path, after a
result was produced, so a propagating exception skips it. driver n gives the
driver outcome of the n-th execution attempt. -/
def run (hasRec : Bool) (q : String) (b : List String)
    (driver : Nat → ExecOutcome A) : RunResult A × RunTrace :=
  match driver 0 with
  | ExecOutcome.success v => (RunResult.ok v, ⟨1, 0, 1⟩)
  | ExecOutcome.failure m =>
    let e := wrapQueryError q b m
    if causedByLostConnection e then
      if hasRec then
        match driver 1 with
        | ExecOutcome.success v => (RunResult.ok v, ⟨2, 1, 1⟩)
        | ExecOutcome.failure m2 =>
          (RunResult.queryErr (wrapQueryError q b m2), ⟨2, 1, 0⟩)
      else (RunResult.configErr noReconnectorMsg, ⟨1, 0, 0⟩)
    else (RunResult.queryErr e, ⟨1, 0, 0⟩)

/-- Modelled from the spec: forwarding of (statement, bindings, elapsed) to
the logging hook. In src, log_query only gates on the logging flag and its
dispatch body is empty, so the number of hook invocations is the number of
log_query calls when logging is enabled and zero when it is disabled. -/
def hookInvocations (loggingOn : Bool) (t : RunTrace) : Nat :=
  if loggingOn then t.logCalls else 0

/-- How a scoped transaction ended. -/
inductive TxOutcome (E : Type)
  | ok
  | workError (e : E)
  | commitError
deriving DecidableEq, Repr

/-- The transaction context manager: begin, run the caller-supplied work; if
the work raises, rollback and re-raise the original error; otherwise commit,
and if the commit itself raises, rollback and propagate the commit failure.
Returns the final state, the number of commit calls, the number of rollback
calls, and the outcome. commitFails states whether the physical commit the
driver performs raises. -/
def transaction (commitFails : Bool) (c : Conn)
    (work : Conn → Conn × Option E) : Conn × Nat × Nat × TxOutcome E :=
  let c1 := begin_transaction c
  match work c1 with
  | (c2, some e) => ((rollback c2).1, 0, 1, TxOutcome.workError e)
  | (c2, none) =>
    match commit commitFails c2 with
    | (c3, _, some _) => ((rollback c3).1, 1, 1, TxOutcome.commitError)
    | (c3, _, none) => (c3, 1, 0, TxOutcome.ok)

end Orator

/-- C2: commit issues a physical commit on the write connection iff the level
is exactly 1 (then the level becomes 0), and for higher levels it only
decrements with no driver call; rollback issues a physical rollback iff the
level is exactly 1 (setting the level to 0), and for higher levels it only
decrements; begin begin commit commit performs exactly one physical commit
and ends at level 0, and begin begin rollback rollback performs exactly one
physical rollback and ends at level 0. -/
theorem C2_nested_transaction_collapse (c : Orator.Conn) :
    (((Orator.commit false c).2.1 = [Orator.DriverCall.physCommit] ↔ c.transactions = 1)
      ∧ (c.transactions = 1 → (Orator.commit false c).1.transactions = 0)
      ∧ (1 < c.transactions →
          (Orator.commit false c).2.1 = []
            ∧ (Orator.commit false c).1.transactions = c.transactions - 1))
    ∧ (((Orator.rollback c).2 = [Orator.DriverCall.physRollback] ↔ c.transactions = 1)
      ∧ (c.transactions = 1 → (Orator.rollback c).1.transactions = 0)
      ∧ (1 < c.transactions →
          (Orator.rollback c).2 = []
            ∧ (Orator.rollback c).1.transactions = c.transactions - 1))
    ∧ (c.transactions = 0 →
        (Orator.runTx c
            [Orator.TxOp.beginT, Orator.TxOp.beginT,
             Orator.TxOp.commitT, Orator.TxOp.commitT]).2
            = [Orator.DriverCall.physCommit]
          ∧ (Orator.runTx c
              [Orator.TxOp.beginT, Orator.TxOp.beginT,
               Orator.TxOp.commitT, Orator.TxOp.commitT]).1.transactions = 0)
    ∧ (c.transactions = 0 →
        (Orator.runTx c
            [Orator.TxOp.beginT, Orator.TxOp.beginT,
             Orator.TxOp.rollbackT, Orator.TxOp.rollbackT]).2
            = [Orator.DriverCall.physRollback]
          ∧ (Orator.runTx c
              [Orator.TxOp.beginT, Orator.TxOp.beginT,
               Orator.TxOp.rollbackT, Orator.TxOp.rollbackT]).1.transactions = 0) := by
  refine ⟨⟨?_, ?_, ?_⟩, ⟨?_, ?_, ?_⟩, ?_, ?_⟩
  · by_cases h : c.transactions = 1 <;> simp [Orator.commit, h]
  · intro h; simp [Orator.commit, h]
  · intro h
    have h1 : c.transactions ≠ 1 := by omega
    simp [Orator.commit, h1]
  · by_cases h : c.transactions = 1 <;> simp [Orator.rollback, h]
  · intro h; simp [Orator.rollback, h]
  · intro h
    have h1 : c.transactions ≠ 1 := by omega
    simp [Orator.rollback, h1]
  · intro h0
    simp [Orator.runTx, Orator.txStep, Orator.begin_transaction, Orator.commit,
      Orator.rollback, h0]
  · intro h0
    simp [Orator.runTx, Orator.txStep, Orator.begin_transaction, Orator.commit,
      Orator.rollback, h0]

/-- C2 witness: concrete nested sequences from a fresh connection. -/
theorem C2_nested_transaction_collapse_witness :
    (Orator.runTx Orator.conn0
        [Orator.TxOp.beginT, Orator.TxOp.beginT,
         Orator.TxOp.commitT, Orator.TxOp.commitT]).2
        = [Orator.DriverCall.physCommit]
      ∧ (Orator.runTx Orator.conn0
          [Orator.TxOp.beginT, Orator.TxOp.beginT,
           Orator.TxOp.rollbackT, Orator.TxOp.rollbackT]).2
          = [Orator.DriverCall.physRollback] :=
  ⟨((C2_nested_transaction_collapse Orator.conn0).2.2.1 rfl).1,
   ((C2_nested_transaction_collapse Orator.conn0).2.2.2 rfl).1⟩

/-- C7 counterexample: commit invoked at level 0 drives the counter to -1,
so the level does go negative under an unbalanced call sequence. -/
theorem C7_counterexample_negative_level :
    (Orator.runTx Orator.conn0 [Orator.TxOp.commitT]).1.transactions < 0 := by
  decide

/-- C7 amended: the level stays non-negative for every sequence in which each
commit and rollback is invoked at level at least 1; without that discipline a
commit or rollback at level 0 decrements the counter to -1. -/
theorem C7_level_nonneg_when_balanced (ops : List Orator.TxOp) (c : Orator.Conn)
    (h0 : 0 ≤ c.transactions) (hb : Orator.balancedFrom c ops = true) :
    0 ≤ (Orator.runTx c ops).1.transactions := by
  induction ops generalizing c with
  | nil => simpa [Orator.runTx] using h0
  | cons op rest ih =>
    have hrun : (Orator.runTx c (op :: rest)).1
        = (Orator.runTx (Orator.txStep c op).1 rest).1 := by
      simp [Orator.runTx]
    rw [hrun]
    cases op with
    | beginT =>
      refine ih _ ?_ ?_
      · simp only [Orator.txStep, Orator.begin_transaction]
        omega
      · simpa [Orator.balancedFrom] using hb
    | commitT =>
      rw [Orator.balancedFrom, Bool.and_eq_true, decide_eq_true_iff] at hb
      refine ih _ ?_ hb.2
      by_cases h1 : c.transactions = 1 <;>
        simp [Orator.txStep, Orator.commit, h1] <;> omega
    | rollbackT =>
      rw [Orator.balancedFrom, Bool.and_eq_true, decide_eq_true_iff] at hb
      refine ih _ ?_ hb.2
      by_cases h1 : c.transactions = 1 <;>
        simp [Orator.txStep, Orator.rollback, h1] <;> omega

/-- C7 witness: a balanced nested sequence keeps the level non-negative. -/
theorem C7_level_nonneg_when_balanced_witness :
    0 ≤ (Orator.runTx Orator.conn0
        [Orator.TxOp.beginT, Orator.TxOp.beginT,
         Orator.TxOp.commitT, Orator.TxOp.rollbackT]).1.transactions :=
  C7_level_nonneg_when_balanced
    [Orator.TxOp.beginT, Orator.TxOp.beginT,
     Orator.TxOp.commitT, Orator.TxOp.rollbackT]
    Orator.conn0 (by decide) (by decide)

/-- C6: the read handle getter returns the write handle whenever the
transaction level is at least 1 or no distinct read handle is configured,
and otherwise returns the configured read handle. -/
theorem C6_read_routing (c : Orator.Conn) :
    (1 ≤ c.transactions → Orator.get_read_connection c = c.connection)
    ∧ (c.readConnection = none → Orator.get_read_connection c = c.connection)
    ∧ (c.transactions < 1 → ∀ r, c.readConnection = some r →
        Orator.get_read_connection c = some r) := by
  refine ⟨?_, ?_, ?_⟩
  · intro h
    simp [Orator.get_read_connection, Orator.get_connection, h]
  · intro h
    by_cases ht : 1 ≤ c.transactions <;>
      simp [Orator.get_read_connection, Orator.get_connection, h, ht]
  · intro ht r hr
    simp [Orator.get_read_connection, Orator.get_connection, hr, not_le.mpr ht]

/-- C6 witness: at level 1 with a distinct read handle configured, the read
getter still returns the write handle. -/
theorem C6_read_routing_witness :
    Orator.get_read_connection
        { Orator.conn0 with transactions := 1, readConnection := some 5 }
      = ({ Orator.conn0 with
            transactions := 1, readConnection := some 5 } : Orator.Conn).connection :=
  (C6_read_routing _).1 (by decide)

/-- C4 counterexample: at transaction level 1 the read-handle setter does not
fail; it installs the new read handle, changing the state. -/
theorem C4_counterexample_read_setter_unguarded :
    (1 : Int) ≤ ({ Orator.conn0 with transactions := 1 } : Orator.Conn).transactions
    ∧ Orator.set_read_connection { Orator.conn0 with transactions := 1 } (some 7)
        = { Orator.conn0 with transactions := 1, readConnection := some 7 }
    ∧ Orator.set_read_connection { Orator.conn0 with transactions := 1 } (some 7)
        ≠ { Orator.conn0 with transactions := 1 } := by
  decide

/-- C4 amended: only the write-handle setter is guarded: at level at least 1
it fails with StateError leaving the state unchanged, and at level 0 it
installs the handle; the read-handle setter installs unconditionally at every
level. -/
theorem C4_swap_guard_write_only (c : Orator.Conn) (h : Option Nat) :
    (1 ≤ c.transactions →
        Orator.set_connection c h = Except.error Orator.StateError.swapWithinTransaction)
    ∧ (c.transactions < 1 →
        Orator.set_connection c h = Except.ok { c with connection := h })
    ∧ Orator.set_read_connection c h = { c with readConnection := h } := by
  refine ⟨?_, ?_, rfl⟩
  · intro hh
    simp [Orator.set_connection, hh]
  · intro hh
    simp [Orator.set_connection, not_le.mpr hh]

/-- C4 witness: the write setter fails inside a transaction and succeeds
outside one. -/
theorem C4_swap_guard_write_only_witness :
    Orator.set_connection { Orator.conn0 with transactions := 1 } (some 9)
        = Except.error Orator.StateError.swapWithinTransaction
    ∧ Orator.set_connection Orator.conn0 (some 9)
        = Except.ok { Orator.conn0 with connection := some 9 } :=
  ⟨(C4_swap_guard_write_only _ _).1 (by decide),
   (C4_swap_guard_write_only _ _).2.1 (by decide)⟩

/-- C3 counterexample: when the pretended work raises, no restoration runs:
after the call the pretend flag is still true and the logging flag is still
force-enabled, although both were false before the call. -/
theorem C3_counterexample_no_restore_on_raise :
    (Orator.pretend Orator.conn0 (fun c => (c, some ()))).2 = some ()
    ∧ (Orator.pretend Orator.conn0 (fun c => (c, some ()))).1.pretending = true
    ∧ (Orator.pretend Orator.conn0 (fun c => (c, some ()))).1.loggingQueries = true
    ∧ Orator.conn0.pretending = false
    ∧ Orator.conn0.loggingQueries = false :=
  ⟨rfl, rfl, rfl, rfl, rfl⟩

/-- C3 amended: pretend invokes the work on a state with the pretend flag set
and logging force-enabled; when the work returns normally the pretend flag is
cleared and the logging flag restored to its saved value, but when the work
raises the exception propagates with no restoration, leaving the state
exactly as the work left it. -/
theorem C3_pretend_scoping {E : Type} (c : Orator.Conn)
    (work : Orator.Conn → Orator.Conn × Option E) (c2 : Orator.Conn) :
    (work { c with loggingQueries := true, pretending := true } = (c2, none) →
        Orator.pretend c work
          = ({ c2 with pretending := false, loggingQueries := c.loggingQueries }, none))
    ∧ (∀ e, work { c with loggingQueries := true, pretending := true } = (c2, some e) →
        Orator.pretend c work = (c2, some e)) := by
  constructor
  · intro hw
    simp [Orator.pretend, hw]
  · intro e hw
    simp [Orator.pretend, hw]

/-- C3 witness: work that returns normally gets its flags restored. -/
theorem C3_pretend_scoping_witness :
    Orator.pretend Orator.conn0 (fun cc => (cc, (none : Option Unit)))
      = ({ { Orator.conn0 with loggingQueries := true, pretending := true } with
            pretending := false, loggingQueries := Orator.conn0.loggingQueries }, none) :=
  (C3_pretend_scoping Orator.conn0 (fun cc => (cc, none))
    { Orator.conn0 with loggingQueries := true, pretending := true }).1 rfl

/-- C8: the scoped transaction helper begins, runs the work, and ends every
scope with the enumerated terminal behavior: work raising gives zero commit
calls, one rollback call, and the original error re-raised unchanged; work
returning normally gives one commit call and, when the commit does not raise,
zero rollback calls and a success outcome; a raising commit gives one
rollback call and propagates the commit failure; in every case at least one
and at most one of each of commit and rollback is called. -/
theorem C8_scoped_transaction {E : Type} (fail : Bool) (c c2 : Orator.Conn)
    (work : Orator.Conn → Orator.Conn × Option E) :
    (∀ e, work (Orator.begin_transaction c) = (c2, some e) →
        Orator.transaction fail c work
          = ((Orator.rollback c2).1, 0, 1, Orator.TxOutcome.workError e))
    ∧ (∀ c3 ds, work (Orator.begin_transaction c) = (c2, none) →
        Orator.commit fail c2 = (c3, ds, none) →
        Orator.transaction fail c work = (c3, 1, 0, Orator.TxOutcome.ok))
    ∧ (∀ c3 ds, work (Orator.begin_transaction c) = (c2, none) →
        Orator.commit fail c2 = (c3, ds, some ()) →
        Orator.transaction fail c work
          = ((Orator.rollback c3).1, 1, 1, Orator.TxOutcome.commitError))
    ∧ ((Orator.transaction fail c work).2.1 ≤ 1
        ∧ (Orator.transaction fail c work).2.2.1 ≤ 1
        ∧ 1 ≤ (Orator.transaction fail c work).2.1
              + (Orator.transaction fail c work).2.2.1) := by
  refine ⟨?_, ?_, ?_, ?_⟩
  · intro e hw
    simp [Orator.transaction, hw]
  · intro c3 ds hw hc
    simp [Orator.transaction, hw, hc]
  · intro c3 ds hw hc
    simp [Orator.transaction, hw, hc]
  · rcases hw : work (Orator.begin_transaction c) with ⟨cw, oe⟩
    cases oe with
    | some e => simp [Orator.transaction, hw]
    | none =>
      rcases hc : Orator.commit fail cw with ⟨c3, ds, oc⟩
      cases oc with
      | some u => simp [Orator.transaction, hw, hc]
      | none => simp [Orator.transaction, hw, hc]

/-- C8 witness: a scope whose work succeeds commits once, never rolls back. -/
theorem C8_scoped_transaction_witness :
    Orator.transaction false Orator.conn0 (fun cc => (cc, (none : Option Unit)))
      = ({ Orator.conn0 with transactions := 0 }, 1, 0, Orator.TxOutcome.ok) :=
  (C8_scoped_transaction false Orator.conn0
      { Orator.conn0 with transactions := 1 } (fun cc => (cc, none))).2.1
    { Orator.conn0 with transactions := 0 } [Orator.DriverCall.physCommit]
    (by decide) (by decide)

/-- C9: with no reconnector configured, reconnect fails with the fatal
configuration error whose message contains the words no reconnector
available; with one configured, reconnect invokes it on the connection and
returns its result; and in the execution pipeline that configuration failure
propagates after a single execution attempt with no retry. -/
theorem C9_reconnect_contract (c : Orator.Conn) (f : Orator.Conn → Orator.Conn) :
    (Orator.reconnect (none : Option (Orator.Conn → Orator.Conn)) c
        = Except.error Orator.noReconnectorMsg
      ∧ Orator.strContainsS Orator.noReconnectorMsg "no reconnector available" = true)
    ∧ Orator.reconnect (some f) c = Except.ok (f c)
    ∧ (∀ (A : Type) (q : String) (b : List String)
          (driver : Nat → Orator.ExecOutcome A) (m : String),
        driver 0 = Orator.ExecOutcome.failure m →
        Orator.causedByLostConnection (Orator.wrapQueryError q b m) = true →
        Orator.run false q b driver
          = (Orator.RunResult.configErr Orator.noReconnectorMsg, ⟨1, 0, 0⟩)) := by
  refine ⟨⟨rfl, by decide⟩, rfl, ?_⟩
  intro A q b driver m hd hm
  simp [Orator.run, hd, hm]

/-- C9 witness: a lost-connection failure with no reconnector propagates the
configuration error after exactly one attempt and no retry. -/
theorem C9_reconnect_contract_witness :
    Orator.run false "q" []
        (fun _ => (Orator.ExecOutcome.failure "server has gone away" : Orator.ExecOutcome Nat))
      = (Orator.RunResult.configErr Orator.noReconnectorMsg, ⟨1, 0, 0⟩) :=
  (C9_reconnect_contract Orator.conn0 id).2.2 Nat "q" [] _
    "server has gone away" rfl (by decide)

/-- C10: select_one returns none on an empty result list, returns the record
at index 1 (the second record, not the first) whenever that index exists, and
on a one-element result list the index access is out of bounds, so it raises
instead of returning the record. -/
theorem C10_select_one_second_record {A : Type} (records : List A) :
    (records = [] → Orator.select_one records = Except.ok none)
    ∧ (records.length = 1 →
        Orator.select_one records = Except.error Orator.SelectOneErr.indexOutOfRange)
    ∧ (∀ x, records.get? 1 = some x →
        Orator.select_one records = Except.ok (some x)) := by
  refine ⟨?_, ?_, ?_⟩
  · rintro rfl
    rfl
  · intro h
    cases records with
    | nil => simp at h
    | cons a t =>
      cases t with
      | nil => rfl
      | cons b t2 => simp at h
  · intro x hx
    cases records with
    | nil => simp at hx
    | cons a t =>
      cases t with
      | nil => simp at hx
      | cons b t2 =>
        simp only [List.get?] at hx
        simp [Orator.select_one, hx]

/-- C10 witness: empty list gives none, a singleton raises, and a two-element
list gives the second element. -/
theorem C10_select_one_second_record_witness :
    Orator.select_one ([] : List Nat) = Except.ok none
    ∧ Orator.select_one [10] = Except.error Orator.SelectOneErr.indexOutOfRange
    ∧ Orator.select_one [10, 20] = Except.ok (some 20) :=
  ⟨(C10_select_one_second_record ([] : List Nat)).1 rfl,
   (C10_select_one_second_record [10]).2.1 (by decide),
   (C10_select_one_second_record [10, 20]).2.2 20 (by decide)⟩

/-- C1: with a reconnector configured, a first execution failing with a cause
message that matches a lost-connection substring leads to exactly one
reconnect and exactly one re-execution, a succeeding retry returning its
value and a failing retry being wrapped and propagated with no further
attempt; a non-matching failure propagates the wrapped error after exactly
one attempt and zero reconnects; and for every driver the strategy executes
at most twice against real handles. -/
theorem C1_retry_once_policy (A : Type) (q : String) (b : List String)
    (driver : Nat → Orator.ExecOutcome A) (m : String)
    (hd : driver 0 = Orator.ExecOutcome.failure m) :
    (Orator.causedByLostConnection (Orator.wrapQueryError q b m) = true →
      ((Orator.run true q b driver).2.reconnects = 1
          ∧ (Orator.run true q b driver).2.attempts = 2)
        ∧ (∀ v, driver 1 = Orator.ExecOutcome.success v →
            Orator.run true q b driver = (Orator.RunResult.ok v, ⟨2, 1, 1⟩))
        ∧ (∀ m2, driver 1 = Orator.ExecOutcome.failure m2 →
            Orator.run true q b driver
              = (Orator.RunResult.queryErr (Orator.wrapQueryError q b m2), ⟨2, 1, 0⟩)))
    ∧ (Orator.causedByLostConnection (Orator.wrapQueryError q b m) = false →
        Orator.run true q b driver
          = (Orator.RunResult.queryErr (Orator.wrapQueryError q b m), ⟨1, 0, 0⟩))
    ∧ (∀ (hr : Bool) (driver2 : Nat → Orator.ExecOutcome A),
        (Orator.run hr q b driver2).2.attempts ≤ 2) := by
  refine ⟨?_, ?_, ?_⟩
  · intro hm
    refine ⟨?_, ?_, ?_⟩
    · rcases h1 : driver 1 with v | m2 <;> simp [Orator.run, hd, hm, h1]
    · intro v h1
      simp [Orator.run, hd, hm, h1]
    · intro m2 h1
      simp [Orator.run, hd, hm, h1]
  · intro hm
    simp [Orator.run, hd, hm]
  · intro hr driver2
    rcases h0 : driver2 0 with v | m0
    · simp [Orator.run, h0]
    · rcases hm0 : Orator.causedByLostConnection (Orator.wrapQueryError q b m0) with _ | _ <;>
        rcases hr with _ | _ <;>
        rcases h1 : driver2 1 with v1 | m1 <;>
        simp [Orator.run, h0, hm0, h1]

/-- C1 witness: a driver that loses the connection once and then succeeds is
reconnected once and retried once, returning the retried value. -/
theorem C1_retry_once_policy_witness :
    Orator.run true "q" []
        (fun n => if n = 0 then Orator.ExecOutcome.failure "server has gone away"
                  else Orator.ExecOutcome.success 42)
      = (Orator.RunResult.ok 42, ⟨2, 1, 1⟩) :=
  ((C1_retry_once_policy Nat "q" []
      (fun n => if n = 0 then Orator.ExecOutcome.failure "server has gone away"
                else Orator.ExecOutcome.success 42)
      "server has gone away" rfl).1 (by decide)).2.1 42 rfl

/-- C5 counterexample: with query logging enabled, a statement whose failure
matches no lost-connection substring propagates as a wrapped error and
log_query is never reached, so the logging hook is invoked zero times, not
once. -/
theorem C5_counterexample_no_log_on_failure :
    (Orator.run true "q" []
        (fun _ => (Orator.ExecOutcome.failure "boom" : Orator.ExecOutcome Nat))).1
        = Orator.RunResult.queryErr (Orator.wrapQueryError "q" [] "boom")
    ∧ (Orator.run true "q" []
        (fun _ => (Orator.ExecOutcome.failure "boom" : Orator.ExecOutcome Nat))).2.logCalls = 0
    ∧ Orator.hookInvocations true
        (Orator.run true "q" []
          (fun _ => (Orator.ExecOutcome.failure "boom" : Orator.ExecOutcome Nat))).2 = 0 := by
  refine ⟨?_, ?_, ?_⟩ <;> decide

/-- C5 amended: log_query runs exactly once when the pipeline returns a
success value (including after a successful retry) and is never reached when
the wrapped error propagates, so with logging enabled the hook fires exactly
once on success and zero times on failure, never twice, and with logging
disabled it never fires. -/
theorem C5_log_once_on_success_only (A : Type) (hasRec : Bool) (q : String)
    (b : List String) (driver : Nat → Orator.ExecOutcome A) :
    ((∃ v, (Orator.run hasRec q b driver).1 = Orator.RunResult.ok v) →
        Orator.hookInvocations true (Orator.run hasRec q b driver).2 = 1)
    ∧ ((∀ v, (Orator.run hasRec q b driver).1 ≠ Orator.RunResult.ok v) →
        Orator.hookInvocations true (Orator.run hasRec q b driver).2 = 0)
    ∧ (Orator.run hasRec q b driver).2.logCalls ≤ 1
    ∧ Orator.hookInvocations false (Orator.run hasRec q b driver).2 = 0 := by
  have hcases :
      ((∃ v, (Orator.run hasRec q b driver).1 = Orator.RunResult.ok v)
          ∧ (Orator.run hasRec q b driver).2.logCalls = 1)
        ∨ ((∀ v, (Orator.run hasRec q b driver).1 ≠ Orator.RunResult.ok v)
          ∧ (Orator.run hasRec q b driver).2.logCalls = 0) := by
    rcases h0 : driver 0 with v | m0
    · exact Or.inl ⟨⟨v, by simp [Orator.run, h0]⟩, by simp [Orator.run, h0]⟩
    · rcases hm0 : Orator.causedByLostConnection (Orator.wrapQueryError q b m0) with _ | _
      · exact Or.inr ⟨fun v => by simp [Orator.run, h0, hm0], by simp [Orator.run, h0, hm0]⟩
      · rcases hr : hasRec with _ | _
        · exact Or.inr ⟨fun v => by simp [Orator.run, h0, hm0], by simp [Orator.run, h0, hm0]⟩
        · rcases h1 : driver 1 with v1 | m1
          · exact Or.inl ⟨⟨v1, by simp [Orator.run, h0, hm0, h1]⟩,
              by simp [Orator.run, h0, hm0, h1]⟩
          · exact Or.inr ⟨fun v => by simp [Orator.run, h0, hm0, h1],
              by simp [Orator.run, h0, hm0, h1]⟩
  rcases hcases with ⟨hok, hlog⟩ | ⟨hnot, hlog⟩
  · refine ⟨fun _ => by simp [Orator.hookInvocations, hlog], ?_, ?_, ?_⟩
    · intro hnone
      rcases hok with ⟨v, hv⟩
      exact absurd hv (hnone v)
    · omega
    · simp [Orator.hookInvocations]
  · refine ⟨?_, fun _ => by simp [Orator.hookInvocations, hlog], ?_, ?_⟩
    · intro hsome
      rcases hsome with ⟨v, hv⟩
      exact absurd hv (hnot v)
    · omega
    · simp [Orator.hookInvocations]

/-- C5 witness: a succeeding statement with logging enabled logs once. -/
theorem C5_log_once_on_success_only_witness :
    Orator.hookInvocations true
        (Orator.run true "q" []
          (fun _ => (Orator.ExecOutcome.success 7 : Orator.ExecOutcome Nat))).2 = 1 :=
  (C5_log_once_on_success_only Nat true "q" []
      (fun _ => (Orator.ExecOutcome.success 7 : Orator.ExecOutcome Nat))).1 ⟨7, rfl⟩
